import Mathlib

/-!
Verification development for the News-Summarizer backend
(src/backend/main.py together with src/backend/models.py).

The Python module is shallowly embedded below.  Conventions used by the
embedding:

* Python strings are Lean `String` (a list of Unicode scalar values);
  `str.strip()` is modelled by `pyStrip` (ASCII whitespace) and
  `str.lower()` by `pyLower` (ASCII case folding); both cover every string
  the specification exercises.
* `requests` calls are modelled by passing the would-be upstream response
  as an explicit argument of type `Except String R` where the `.error`
  constructor stands for a transport-level exception raised by
  `requests.get` or `requests.post` (timeout, connection error) and carries
  the exception text.
* Fallible Python code returns `Except PyExn` where `PyExn.http` models a
  raised `fastapi.HTTPException` and `PyExn.exn` any other raised
  exception (carrying `str(e)`).
* `time.time()` values are modelled as integers (seconds); the module only
  subtracts them and compares against the TTL constant.
* The process-wide dictionary `CACHE` is modelled as an explicit map
  `String -> Option CacheEntry` threaded through the endpoint.
* `hashlib.sha256(raw).hexdigest()` is modelled as the identity embedding
  of the serialized payload `raw`: the specification treats SHA-256
  collisions as negligible, and under that assumption equality of digests
  coincides with equality of the serialized payloads, which is what the
  fingerprint theorems below are about.  The serialization itself
  (`json.dumps` with `sort_keys=True` and default separators and
  `ensure_ascii=True`) is embedded faithfully, character escapes included.
-/

/-- `Literal["news","X","both"]` from src/backend/models.py. -/
inductive SourceType where
  | news
  | X
  | both
deriving DecidableEq

/-- The string value carried by each member of the literal type. -/
def SourceType.str : SourceType → String
  | .news => "news"
  | .X => "X"
  | .both => "both"

/-- `NewsRequest` from src/backend/models.py. -/
structure NewsRequest where
  topics : List String
  source_type : SourceType

/-- A raised `fastapi.HTTPException`: status code plus detail text. -/
structure HTTPError where
  status : Nat
  detail : String
deriving DecidableEq

/-- A raised Python exception: either an `HTTPException` or any other
exception carrying its `str()` rendering. -/
inductive PyExn where
  | http (e : HTTPError)
  | exn (msg : String)
deriving DecidableEq

/-- The two `except` clauses of the endpoint (main.py lines 341-349):
an `HTTPException` is re-raised unchanged, any other exception becomes
`HTTPException(status_code=500, detail=str(e))`. -/
def pyToHTTP : PyExn → HTTPError
  | .http e => e
  | .exn msg => ⟨500, msg⟩

/-- Python truthiness of an optional environment string: `None` and the
empty string are falsy (`if not NEWS_API_KEY: ...`). -/
def pyTruthy : Option String → Bool
  | none => false
  | some s => s != ""

/-- The response payload `{"summary": ..., "audio": ...}` built by the
endpoint (main.py lines 331-334). -/
structure ResultPayload where
  summary : String
  audio : String
deriving DecidableEq

/-- A `CACHE` entry `{"data": ..., "ts": ...}` (main.py line 86). -/
structure CacheEntry where
  data : ResultPayload
  ts : Int
deriving DecidableEq

/-- The process-wide dictionary `CACHE` (main.py line 53). -/
def Cache : Type := String → Option CacheEntry

/-- `CACHE_TTL_SECONDS = 10 * 60` (main.py line 54). -/
def CACHE_TTL_SECONDS : Int := 10 * 60

/-- `get_from_cache` (main.py lines 72-81).  Returns the cached payload and
the cache as left behind by the call (an expired entry is deleted).  The
stored dictionary is non-empty, so `if not entry` is its presence test. -/
def get_from_cache (cache : Cache) (now : Int) (key : String) :
    Option ResultPayload × Cache :=
  match cache key with
  | none => (none, cache)
  | some entry =>
    if now - entry.ts > CACHE_TTL_SECONDS then
      (none, fun k => if k = key then none else cache k)
    else
      (some entry.data, cache)

/-- `set_cache` (main.py lines 84-86). -/
def set_cache (cache : Cache) (now : Int) (key : String) (data : ResultPayload) :
    Cache :=
  fun k => if k = key then some ⟨data, now⟩ else cache k

/-- Python `str.isspace` on the ASCII whitespace characters (the set
relevant to this module). -/
def pyIsSpace (c : Char) : Bool :=
  c = ' ' || c = '\t' || c = '\n' || c = '\r' || c = '\x0b' || c = '\x0c'

/-- Drop leading whitespace characters. -/
def dropLeading : List Char → List Char
  | [] => []
  | c :: cs => if pyIsSpace c then dropLeading cs else c :: cs

/-- Python `str.strip()`: remove leading and trailing whitespace. -/
def pyStrip (s : String) : String :=
  String.mk (((dropLeading s.data).reverse |> dropLeading).reverse)

/-- Python `str.lower()` on the ASCII range. -/
def pyLower (s : String) : String :=
  String.mk (s.data.map Char.toLower)

/-! ### The fingerprint builder, `make_cache_key` (main.py lines 57-69)

`json.dumps(payload, sort_keys=True)` is embedded character for
character: default separators `", "` and `": "`, keys sorted
(`"source_type" < "topics"`), `ensure_ascii=True` string escaping with
lowercase hex digits and UTF-16 surrogate pairs for astral code points. -/

/-- Lowercase hexadecimal digit, as produced by Python `"%04x"`. -/
def toHexDigit (n : Nat) : Char :=
  if n < 10 then Char.ofNat (48 + n) else Char.ofNat (87 + n)

/-- Four lowercase hex digits of `n`, most significant first. -/
def hex4 (n : Nat) : List Char :=
  [toHexDigit (n / 4096 % 16), toHexDigit (n / 256 % 16),
   toHexDigit (n / 16 % 16), toHexDigit (n % 16)]

/-- The `ensure_ascii` JSON escape of one character, as emitted by
`json.dumps`: backslash and quote get two-character escapes, the five
named control characters get their short escapes, every other character
below `0x20` or above `0x7E` becomes `\uXXXX` (a surrogate pair for
code points above `0xFFFF`), and the remaining printable ASCII characters
stand for themselves. -/
def jsonEscapeChar (c : Char) : List Char :=
  if c = '\\' then ['\\', '\\']
  else if c = '"' then ['\\', '"']
  else if c = '\x08' then ['\\', 'b']
  else if c = '\x09' then ['\\', 't']
  else if c = '\x0a' then ['\\', 'n']
  else if c = '\x0c' then ['\\', 'f']
  else if c = '\x0d' then ['\\', 'r']
  else if c.toNat < 0x20 then '\\' :: 'u' :: hex4 c.toNat
  else if c.toNat < 0x7F then [c]
  else if c.toNat < 0x10000 then '\\' :: 'u' :: hex4 c.toNat
  else
    let v := c.toNat - 0x10000
    ('\\' :: 'u' :: hex4 (0xD800 + v / 1024)) ++
    ('\\' :: 'u' :: hex4 (0xDC00 + v % 1024))

/-- JSON escape of a character list. -/
def escList : List Char → List Char
  | [] => []
  | c :: cs => jsonEscapeChar c ++ escList cs

/-- A JSON string literal: quote, escaped contents, quote. -/
def jsonStr (s : String) : List Char :=
  '"' :: (escList s.data ++ ['"'])

/-- The comma-separated items of a JSON array of strings (separator
`", "`, as produced by the default `json.dumps` separators). -/
def jsonList : List String → List Char
  | [] => []
  | [s] => jsonStr s
  | s :: s2 :: rest => jsonStr s ++ ',' :: ' ' :: jsonList (s2 :: rest)

/-- `json.dumps({"topics": sorted_topics, "source_type": source_type},
sort_keys=True)`: the key `"source_type"` sorts before `"topics"`. -/
def cacheKeyRaw (sortedTopics : List String) (source_type : String) : List Char :=
  "\x7b\"source_type\": ".data ++ jsonStr source_type ++
  ", \"topics\": [".data ++ jsonList sortedTopics ++ [']', '\x7d']

/-- The list comprehension of main.py line 62:
`[t.strip().lower() for t in topics if t.strip()]`. -/
def normalized_topics (topics : List String) : List String :=
  (topics.filter (fun t => pyStrip t != "")).map (fun t => pyLower (pyStrip t))

/-- Lexicographic comparison of character lists by code point, the order
Python uses to compare strings. -/
def charListLe : List Char → List Char → Bool
  | [], _ => true
  | _ :: _, [] => false
  | c :: cs, d :: ds => if c = d then charListLe cs ds else decide (c.toNat < d.toNat)

/-- Python string comparison (`<=`). -/
def strLe (a b : String) : Bool :=
  charListLe a.data b.data

/-- The in-place `normalized_topics.sort()` of main.py line 63.  Python
`list.sort` on strings orders by code points; it is modelled by insertion
sort with respect to that order, which yields the same (the unique) sorted
rearrangement. -/
def sortStrings (l : List String) : List String :=
  List.insertionSort (fun a b => strLe a b = true) l

/-- `make_cache_key` (main.py lines 57-69), with the SHA-256 hex digest
modelled as the identity on the serialized payload (see the module
comment). -/
def make_cache_key (topics : List String) (source_type : String) : String :=
  String.mk (cacheKeyRaw (sortStrings (normalized_topics topics)) source_type)

/-! ### Upstream response models -/

/-- One element of the `"articles"` array of a NewsAPI response; the
fields model `article.get("title", "")` and `article.get("description",
"")`, with `none` standing for an absent key. -/
structure Article where
  title : Option String
  description : Option String
deriving DecidableEq

/-- Body of a NewsAPI response: either text that is not valid JSON (so
`resp.json()` raises) or a JSON object whose `"articles"` key is absent
(`none`) or holds a list. -/
inductive NewsBody where
  | invalid
  | json (articles : Option (List Article))
deriving DecidableEq

/-- A NewsAPI HTTP response: status code, raw text, body. -/
structure NewsResp where
  status : Nat
  text : String
  body : NewsBody
deriving DecidableEq

/-- Body of an X API response: invalid JSON, or a JSON object whose
`"data"` key is absent or holds a list of tweets; each tweet is modelled
by its optional `"text"` field (`tweet.get("text", "")`). -/
inductive XBody where
  | invalid
  | json (tweets : Option (List (Option String)))
deriving DecidableEq

/-- An X API HTTP response. -/
structure XResp where
  status : Nat
  text : String
  body : XBody
deriving DecidableEq

/-- Body of a Groq response: invalid JSON, or a JSON object with an
optional `"error"` member (carrying its rendering) and an optional
`"choices"` array, each choice modelled by the string
`str(choice["message"]["content"])`. -/
inductive GroqBody where
  | invalid
  | json (err : Option String) (choices : Option (List String))
deriving DecidableEq

/-- A Groq HTTP response. -/
structure GroqResp where
  status : Nat
  text : String
  body : GroqBody
deriving DecidableEq

deriving instance DecidableEq for Except

/-- Outcome of one scraper invocation: the returned value or raised
exception, plus whether the `requests.get` line was reached.  The second
component instruments the source; it is `true` exactly on the paths of
the Python function that execute the network call. -/
structure Fetch where
  out : Except PyExn String
  network : Bool
deriving DecidableEq

/-- `scrape_google_news` (main.py lines 91-130).  The query URL built from
the topics does not influence the outcome and is not materialized. -/
def scrape_google_news (NEWS_API_KEY : Option String) (_topics : List String)
    (resp : Except String NewsResp) : Fetch :=
  if !pyTruthy NEWS_API_KEY then
    ⟨.error (.http ⟨500, "NEWS_API_KEY is not configured on the server."⟩), false⟩
  else
    match resp with
    | .error m => ⟨.error (.exn m), true⟩
    | .ok r =>
      if r.status = 429 then
        ⟨.error (.http ⟨429, "News API rate limit reached. Please wait and try again."⟩), true⟩
      else if r.status ≠ 200 then
        ⟨.error (.http ⟨r.status, "News API error: " ++ r.text⟩), true⟩
      else
        match r.body with
        | .invalid => ⟨.error (.exn ("Invalid JSON: " ++ r.text)), true⟩
        | .json articles? =>
          let articles := articles?.getD []
          if articles.isEmpty then ⟨.ok "", true⟩
          else
            let combined := (articles.take 5).map
              (fun a => (a.title.getD "") ++ ". " ++ (a.description.getD ""))
            ⟨.ok (pyStrip (String.intercalate " " combined)), true⟩

/-- `scrape_x_posts` (main.py lines 133-169). -/
def scrape_x_posts (X_BEARER_TOKEN : Option String) (_topics : List String)
    (resp : Except String XResp) : Fetch :=
  if !pyTruthy X_BEARER_TOKEN then
    ⟨.ok "", false⟩
  else
    match resp with
    | .error m => ⟨.error (.exn m), true⟩
    | .ok r =>
      if r.status = 429 then
        ⟨.error (.http ⟨429, "X API rate limit reached. Please wait and try again."⟩), true⟩
      else if r.status ≠ 200 then
        ⟨.ok "", true⟩
      else
        match r.body with
        | .invalid => ⟨.error (.exn ("Invalid JSON: " ++ r.text)), true⟩
        | .json tweets? =>
          let tweets := tweets?.getD []
          if tweets.isEmpty then ⟨.ok "", true⟩
          else
            ⟨.ok (pyStrip (String.intercalate " " (tweets.map (fun t => t.getD "")))), true⟩

/-! ### The `<think>` block cleaning of `summary_function`
(`re.sub(r"<think>.*?</think>", "", raw_text, flags=re.DOTALL)`,
main.py line 256).

`re.sub` scans left to right: each match starts at the leftmost
remaining occurrence of `<think>` and ends at the first `</think>` after
it (non-greedy), `.` matching newlines under `DOTALL`; scanning resumes
after the removed match. -/

/-- Whether `pat` is a prefix of `l`. -/
def startsWithCL : List Char → List Char → Bool
  | [], _ => true
  | _ :: _, [] => false
  | p :: ps, c :: cs => p = c && startsWithCL ps cs

/-- Split `l` around the leftmost occurrence of `pat`: returns the part
before the occurrence and the part after it. -/
def findSplit (pat : List Char) : List Char → Option (List Char × List Char)
  | [] => if startsWithCL pat [] then some ([], []) else none
  | c :: cs =>
    if startsWithCL pat (c :: cs) then some ([], (c :: cs).drop pat.length)
    else (findSplit pat cs).map (fun p => (c :: p.1, p.2))

/-- The literal `<think>`. -/
def thinkOpen : List Char := "<think>".data

/-- The literal `</think>`. -/
def thinkClose : List Char := "</think>".data

/-- One `re.sub` scan: remove the leftmost `<think>...</think>` match and
continue after it; a `<think>` with no later `</think>` matches nothing.
The fuel bounds the number of removals; each removal consumes at least
the two delimiters, so the input length is always enough fuel. -/
def removeThinkAux : Nat → List Char → List Char
  | 0, l => l
  | fuel + 1, l =>
    match findSplit thinkOpen l with
    | none => l
    | some (pre, afterOpen) =>
      match findSplit thinkClose afterOpen with
      | none => l
      | some (_, afterClose) => pre ++ removeThinkAux fuel afterClose

/-- `re.sub(r"<think>.*?</think>", "", raw_text, flags=re.DOTALL)`. -/
def removeThinkStr (s : String) : String :=
  String.mk (removeThinkAux s.data.length s.data)

/-- `summary_function` (main.py lines 174-257).  The fixed prompt payload
sent to Groq does not influence the control flow and is not
materialized; the `detail` of the no-choices failure is modelled without
the interpolated response dump. -/
def summary_function (GROQ_API_KEY : Option String) (resp : Except String GroqResp)
    (news_data x_data : String) : Except PyExn String :=
  if !pyTruthy GROQ_API_KEY then
    .error (.http ⟨500, "GROQ_API_KEY is not configured on the server."⟩)
  else if news_data = "" ∧ x_data = "" then
    .error (.http ⟨400, "No news or tweets available to summarize for the given topics."⟩)
  else
    match resp with
    | .error m => .error (.exn m)
    | .ok r =>
      if r.status = 429 then
        .error (.http ⟨429, "Groq LLM rate limit reached. Please wait a few seconds and try again."⟩)
      else if r.status ≠ 200 then
        .error (.http ⟨r.status, "Groq API error: " ++ r.text⟩)
      else
        match r.body with
        | .invalid => .error (.http ⟨500, "Invalid JSON from Groq: " ++ r.text⟩)
        | .json err? choices? =>
          match err? with
          | some e => .error (.http ⟨500, "Groq API error: " ++ e⟩)
          | none =>
            match choices? with
            | none => .error (.http ⟨500, "No choices in Groq response"⟩)
            | some [] => .error (.http ⟨500, "No choices in Groq response"⟩)
            | some (c :: _) =>
              let raw_text := pyStrip c
              .ok (pyStrip (removeThinkStr raw_text))

/-! ### The endpoint, `generate_audio` (main.py lines 278-349) -/

/-- The ambient state consumed by one request: the three credentials, the
three upstream responses the network would deliver, the speech
synthesizer (an opaque external collaborator mapping the summary text to
base64 audio), and the current time (both `time.time()` calls of one
request are modelled as the same instant). -/
structure Env where
  NEWS_API_KEY : Option String
  X_BEARER_TOKEN : Option String
  GROQ_API_KEY : Option String
  newsResp : Except String NewsResp
  xResp : Except String XResp
  groqResp : Except String GroqResp
  tts : String → String
  now : Int

/-- Which of the four collaborator functions the endpoint invoked. -/
structure Calls where
  news : Bool
  x : Bool
  summarize : Bool
  tts : Bool
deriving DecidableEq

/-- No collaborator invoked. -/
def noCalls : Calls := ⟨false, false, false, false⟩

/-- Result of one endpoint invocation: the HTTP response, the cache left
behind, and the invocation record. -/
structure PipeOut where
  resp : Except HTTPError ResultPayload
  cache : Cache
  calls : Calls

/-- The topic filtering of main.py line 290:
`[t.strip() for t in request.topics if t.strip()]`. -/
def filter_topics (topics : List String) : List String :=
  (topics.map pyStrip).filter (fun t => t != "")

/-- The cache-miss path of the endpoint (main.py lines 301-339): fetch
according to the selector, guard against no data, summarize, synthesize,
store.  A raised exception short-circuits and is converted by the
`except` clauses (`pyToHTTP`). -/
def runPipe (env : Env) (cache1 : Cache) (key : String) (topics : List String)
    (st : SourceType) : PipeOut :=
  let doNews := st = SourceType.news ∨ st = SourceType.both
  let doX := st = SourceType.X ∨ st = SourceType.both
  let newsF := if doNews then scrape_google_news env.NEWS_API_KEY topics env.newsResp
               else ⟨.ok "", false⟩
  match newsF.out with
  | .error e => ⟨.error (pyToHTTP e), cache1, ⟨decide doNews, false, false, false⟩⟩
  | .ok news_data =>
    let xF := if doX then scrape_x_posts env.X_BEARER_TOKEN topics env.xResp
              else ⟨.ok "", false⟩
    match xF.out with
    | .error e => ⟨.error (pyToHTTP e), cache1, ⟨decide doNews, decide doX, false, false⟩⟩
    | .ok x_data =>
      if news_data = "" ∧ x_data = "" then
        ⟨.error ⟨400, "No data could be fetched from News or X for the given topics."⟩,
         cache1, ⟨decide doNews, decide doX, false, false⟩⟩
      else
        match summary_function env.GROQ_API_KEY env.groqResp news_data x_data with
        | .error e => ⟨.error (pyToHTTP e), cache1, ⟨decide doNews, decide doX, true, false⟩⟩
        | .ok summary =>
          if pyStrip summary = "" then
            ⟨.error ⟨500, "Summary generation failed."⟩, cache1,
             ⟨decide doNews, decide doX, true, false⟩⟩
          else
            let audio := env.tts summary
            let result : ResultPayload := ⟨summary, audio⟩
            ⟨.ok result, set_cache cache1 env.now key result,
             ⟨decide doNews, decide doX, true, true⟩⟩

/-- The endpoint `generate_audio` (main.py lines 278-349).  The stored
payload dictionary is non-empty, hence always truthy, so `if cached:` is
its presence test. -/
def generate_audio (env : Env) (cache : Cache) (req : NewsRequest) : PipeOut :=
  let topics := filter_topics req.topics
  if topics = [] then
    ⟨.error ⟨400, "At least one non-empty topic is required."⟩, cache, noCalls⟩
  else
    let key := make_cache_key topics req.source_type.str
    let looked := get_from_cache cache env.now key
    match looked.1 with
    | some data => ⟨.ok data, looked.2, noCalls⟩
    | none => runPipe env looked.2 key topics req.source_type

def decodeHex (c : Char) : Option Nat :=
  if '0' ≤ c ∧ c ≤ '9' then some (c.toNat - 48)
  else if 'a' ≤ c ∧ c ≤ 'f' then some (c.toNat - 87)
  else none

def decEscLow (n : Nat) (g1 g2 g3 g4 : Char) (rest2 : List Char) : Option (Nat × List Char) :=
  match decodeHex g1, decodeHex g2, decodeHex g3, decodeHex g4 with
  | some a, some b, some c, some d =>
    let m := ((a * 16 + b) * 16 + c) * 16 + d
    if 0xDC00 ≤ m ∧ m < 0xE000 then
      some ((n - 0xD800) * 1024 + (m - 0xDC00) + 0x10000, rest2)
    else none
  | _, _, _, _ => none

def decEscN (n : Nat) (rest : List Char) : Option (Nat × List Char) :=
  if 0xD800 ≤ n ∧ n < 0xDC00 then
    match rest with
    | '\\' :: 'u' :: g1 :: g2 :: g3 :: g4 :: rest2 => decEscLow n g1 g2 g3 g4 rest2
    | _ => none
  else some (n, rest)

def decEscU (h1 h2 h3 h4 : Char) (rest : List Char) : Option (Nat × List Char) :=
  match decodeHex h1, decodeHex h2, decodeHex h3, decodeHex h4 with
  | some a, some b, some c, some d => decEscN (((a * 16 + b) * 16 + c) * 16 + d) rest
  | _, _, _, _ => none

def decEscSlash : List Char → Option (Nat × List Char)
  | '\\' :: r => some (92, r)
  | '"' :: r => some (34, r)
  | 'b' :: r => some (8, r)
  | 't' :: r => some (9, r)
  | 'n' :: r => some (10, r)
  | 'f' :: r => some (12, r)
  | 'r' :: r => some (13, r)
  | 'u' :: h1 :: h2 :: h3 :: h4 :: rest => decEscU h1 h2 h3 h4 rest
  | _ => none

def decEsc : List Char → Option (Nat × List Char)
  | [] => none
  | c :: cs => if c = '\\' then decEscSlash cs else some (c.toNat, cs)

theorem decodeHex_toHexDigit_fin : ∀ k : Fin 16, decodeHex (toHexDigit k.val) = some k.val := by
  decide

theorem decodeHex_toHexDigit (k : Nat) (hk : k < 16) : decodeHex (toHexDigit k) = some k :=
  decodeHex_toHexDigit_fin ⟨k, hk⟩

theorem char_toNat_inj {a b : Char} (h : a.toNat = b.toNat) : a = b := by
  cases a with
  | mk va ha =>
    cases b with
    | mk vb hb =>
      simp only [Char.toNat] at h
      congr 1
      exact UInt32.ext h

theorem hexDigits_recompose (m : Nat) (hm : m < 65536) :
    ((m / 4096 % 16 * 16 + m / 256 % 16) * 16 + m / 16 % 16) * 16 + m % 16 = m := by
  omega

theorem digit_bound (m : Nat) : m % 16 < 16 := by omega

theorem decEsc_u_step (t1 t2 t3 t4 : Char) (r : List Char) :
    decEsc ('\\' :: 'u' :: t1 :: t2 :: t3 :: t4 :: r) = decEscU t1 t2 t3 t4 r := rfl

theorem decEscN_low (n : Nat) (h : 0xD800 ≤ n ∧ n < 0xDC00) (g1 g2 g3 g4 : Char)
    (r2 : List Char) :
    decEscN n ('\\' :: 'u' :: g1 :: g2 :: g3 :: g4 :: r2) = decEscLow n g1 g2 g3 g4 r2 := by
  unfold decEscN
  rw [if_pos h]
  rfl

theorem decEscU_hex (n : Nat) (hn : n < 65536) (r : List Char) :
    decEscU (toHexDigit (n / 4096 % 16)) (toHexDigit (n / 256 % 16))
      (toHexDigit (n / 16 % 16)) (toHexDigit (n % 16)) r = decEscN n r := by
  unfold decEscU
  rw [decodeHex_toHexDigit _ (digit_bound _), decodeHex_toHexDigit _ (digit_bound _),
    decodeHex_toHexDigit _ (digit_bound _), decodeHex_toHexDigit _ (digit_bound _)]
  dsimp only
  rw [hexDigits_recompose _ hn]

theorem decEsc_u (n : Nat) (hn : n < 65536) (hsur : ¬(0xD800 ≤ n ∧ n < 0xDC00)) (r : List Char) :
    decEsc ('\\' :: 'u' :: hex4 n ++ r) = some (n, r) := by
  simp only [hex4, List.cons_append, List.nil_append]
  rw [decEsc_u_step, decEscU_hex _ hn]
  unfold decEscN
  rw [if_neg hsur]

theorem decEsc_plain (c : Char) (hc : c ≠ '\\') (r : List Char) :
    decEsc (c :: r) = some (c.toNat, r) := by
  rw [decEsc, if_neg hc]

theorem decEsc_pair (n : Nat) (h1 : 0x10000 ≤ n) (h2 : n < 0x110000) (r : List Char) :
    decEsc (('\\' :: 'u' :: hex4 (0xD800 + (n - 0x10000) / 1024)) ++
            (('\\' :: 'u' :: hex4 (0xDC00 + (n - 0x10000) % 1024)) ++ r)) =
      some (n, r) := by
  have hmod : (n - 0x10000) % 1024 < 1024 := Nat.mod_lt _ (by omega)
  have hdiv : (n - 0x10000) / 1024 < 1024 := by omega
  have hhi : 0xD800 + (n - 0x10000) / 1024 < 65536 := by omega
  have hlo : 0xDC00 + (n - 0x10000) % 1024 < 65536 := by omega
  simp only [hex4, List.cons_append, List.nil_append]
  rw [decEsc_u_step, decEscU_hex _ hhi, decEscN_low _ (by omega), decEscLow]
  rw [decodeHex_toHexDigit _ (digit_bound _), decodeHex_toHexDigit _ (digit_bound _),
    decodeHex_toHexDigit _ (digit_bound _), decodeHex_toHexDigit _ (digit_bound _)]
  dsimp only
  rw [hexDigits_recompose _ hlo]
  rw [if_pos (by omega)]
  congr 1
  congr 1
  omega

theorem decEsc_esc (c : Char) (r : List Char) :
    decEsc (jsonEscapeChar c ++ r) = some (c.toNat, r) := by
  have hv : c.toNat < 0xd800 ∨ 0xdfff < c.toNat ∧ c.toNat < 0x110000 := c.valid
  unfold jsonEscapeChar
  by_cases h1 : c = '\\'
  · rw [if_pos h1]; subst h1; rfl
  rw [if_neg h1]
  by_cases h2 : c = '"'
  · rw [if_pos h2]; subst h2; rfl
  rw [if_neg h2]
  by_cases h3 : c = '\x08'
  · rw [if_pos h3]; subst h3; rfl
  rw [if_neg h3]
  by_cases h4 : c = '\x09'
  · rw [if_pos h4]; subst h4; rfl
  rw [if_neg h4]
  by_cases h5 : c = '\x0a'
  · rw [if_pos h5]; subst h5; rfl
  rw [if_neg h5]
  by_cases h6 : c = '\x0c'
  · rw [if_pos h6]; subst h6; rfl
  rw [if_neg h6]
  by_cases h7 : c = '\x0d'
  · rw [if_pos h7]; subst h7; rfl
  rw [if_neg h7]
  by_cases h8 : c.toNat < 0x20
  · rw [if_pos h8]
    exact decEsc_u _ (by omega) (by omega) r
  rw [if_neg h8]
  by_cases h9 : c.toNat < 0x7F
  · rw [if_pos h9]
    exact decEsc_plain c h1 r
  rw [if_neg h9]
  by_cases h10 : c.toNat < 0x10000
  · rw [if_pos h10]
    exact decEsc_u _ (by omega) (by omega) r
  rw [if_neg h10]
  dsimp only
  have := decEsc_pair c.toNat (by omega) (by omega) r
  simpa [List.append_assoc] using this

theorem escChar_append_inj {c d : Char} {r s : List Char}
    (h : jsonEscapeChar c ++ r = jsonEscapeChar d ++ s) : c = d ∧ r = s := by
  have h1 := decEsc_esc c r
  have h2 := decEsc_esc d s
  rw [h, h2] at h1
  simp only [Option.some.injEq, Prod.mk.injEq] at h1
  exact ⟨(char_toNat_inj h1.1).symm, h1.2.symm⟩

theorem escChar_shape (c : Char) : ∃ e t, jsonEscapeChar c = e :: t ∧ e ≠ '"' := by
  unfold jsonEscapeChar
  by_cases h1 : c = '\\'
  · rw [if_pos h1]; exact ⟨'\\', ['\\'], rfl, by decide⟩
  rw [if_neg h1]
  by_cases h2 : c = '"'
  · rw [if_pos h2]; exact ⟨'\\', ['"'], rfl, by decide⟩
  rw [if_neg h2]
  by_cases h3 : c = '\x08'
  · rw [if_pos h3]; exact ⟨'\\', ['b'], rfl, by decide⟩
  rw [if_neg h3]
  by_cases h4 : c = '\x09'
  · rw [if_pos h4]; exact ⟨'\\', ['t'], rfl, by decide⟩
  rw [if_neg h4]
  by_cases h5 : c = '\x0a'
  · rw [if_pos h5]; exact ⟨'\\', ['n'], rfl, by decide⟩
  rw [if_neg h5]
  by_cases h6 : c = '\x0c'
  · rw [if_pos h6]; exact ⟨'\\', ['f'], rfl, by decide⟩
  rw [if_neg h6]
  by_cases h7 : c = '\x0d'
  · rw [if_pos h7]; exact ⟨'\\', ['r'], rfl, by decide⟩
  rw [if_neg h7]
  by_cases h8 : c.toNat < 0x20
  · rw [if_pos h8]; exact ⟨'\\', 'u' :: hex4 c.toNat, rfl, by decide⟩
  rw [if_neg h8]
  by_cases h9 : c.toNat < 0x7F
  · rw [if_pos h9]; exact ⟨c, [], rfl, h2⟩
  rw [if_neg h9]
  by_cases h10 : c.toNat < 0x10000
  · rw [if_pos h10]; exact ⟨'\\', 'u' :: hex4 c.toNat, rfl, by decide⟩
  rw [if_neg h10]
  dsimp only
  refine ⟨'\\', 'u' :: (hex4 (0xD800 + (c.toNat - 0x10000) / 1024) ++
    ('\\' :: 'u' :: hex4 (0xDC00 + (c.toNat - 0x10000) % 1024))), ?_, by decide⟩
  simp

theorem escList_quote_inj :
    ∀ (l1 l2 r1 r2 : List Char),
      escList l1 ++ '"' :: r1 = escList l2 ++ '"' :: r2 → l1 = l2 ∧ r1 = r2 := by
  intro l1
  induction l1 with
  | nil =>
    intro l2 r1 r2 h
    cases l2 with
    | nil => simpa [escList] using h
    | cons d ds =>
      obtain ⟨e, t, he, hne⟩ := escChar_shape d
      rw [show escList (d :: ds) = jsonEscapeChar d ++ escList ds from rfl, he] at h
      simp only [escList, List.nil_append, List.cons_append, List.cons.injEq] at h
      exact absurd h.1.symm hne
  | cons c cs ih =>
    intro l2 r1 r2 h
    cases l2 with
    | nil =>
      obtain ⟨e, t, he, hne⟩ := escChar_shape c
      rw [show escList (c :: cs) = jsonEscapeChar c ++ escList cs from rfl, he] at h
      simp only [escList, List.nil_append, List.cons_append, List.cons.injEq] at h
      exact absurd h.1 hne
    | cons d ds =>
      rw [show escList (c :: cs) = jsonEscapeChar c ++ escList cs from rfl,
        show escList (d :: ds) = jsonEscapeChar d ++ escList ds from rfl,
        List.append_assoc, List.append_assoc] at h
      obtain ⟨hc, hrest⟩ := escChar_append_inj h
      obtain ⟨hl, hr⟩ := ih ds r1 r2 hrest
      exact ⟨by rw [hc, hl], hr⟩

theorem jsonStr_append_inj {s1 s2 : String} {r1 r2 : List Char}
    (h : jsonStr s1 ++ r1 = jsonStr s2 ++ r2) : s1 = s2 ∧ r1 = r2 := by
  unfold jsonStr at h
  simp only [List.cons_append, List.append_assoc, List.singleton_append,
    List.cons.injEq, true_and] at h
  obtain ⟨hd, hr⟩ := escList_quote_inj _ _ _ _ h
  exact ⟨congrArg String.mk hd, hr⟩

theorem jsonStr_shape (s : String) : ∃ t, jsonStr s = '"' :: t :=
  ⟨escList s.data ++ ['"'], rfl⟩

theorem jsonList_bracket_inj :
    ∀ (l1 l2 : List String) (r1 r2 : List Char),
      jsonList l1 ++ ']' :: r1 = jsonList l2 ++ ']' :: r2 → l1 = l2 ∧ r1 = r2 := by
  intro l1
  induction l1 with
  | nil =>
    intro l2 r1 r2 h
    cases l2 with
    | nil => simpa [jsonList] using h
    | cons d ds =>
      obtain ⟨t, ht⟩ := jsonStr_shape d
      cases ds with
      | nil =>
        rw [show jsonList [d] = jsonStr d from rfl, ht] at h
        simp only [jsonList, List.nil_append, List.cons_append, List.cons.injEq] at h
        exact absurd h.1 (by decide)
      | cons d2 t2 =>
        rw [show jsonList (d :: d2 :: t2) = jsonStr d ++ ',' :: ' ' :: jsonList (d2 :: t2)
          from rfl, ht] at h
        simp only [jsonList, List.nil_append, List.cons_append, List.append_assoc,
          List.cons.injEq] at h
        exact absurd h.1 (by decide)
  | cons c cs ih =>
    intro l2 r1 r2 h
    cases l2 with
    | nil =>
      obtain ⟨t, ht⟩ := jsonStr_shape c
      cases cs with
      | nil =>
        rw [show jsonList [c] = jsonStr c from rfl, ht] at h
        simp only [jsonList, List.nil_append, List.cons_append, List.cons.injEq] at h
        exact absurd h.1 (by decide)
      | cons c2 t1 =>
        rw [show jsonList (c :: c2 :: t1) = jsonStr c ++ ',' :: ' ' :: jsonList (c2 :: t1)
          from rfl, ht] at h
        simp only [jsonList, List.nil_append, List.cons_append, List.append_assoc,
          List.cons.injEq] at h
        exact absurd h.1 (by decide)
    | cons d ds =>
      cases cs with
      | nil =>
        cases ds with
        | nil =>
          rw [show jsonList [c] = jsonStr c from rfl,
            show jsonList [d] = jsonStr d from rfl] at h
          obtain ⟨hs, htail⟩ := jsonStr_append_inj h
          simp only [List.cons.injEq] at htail
          exact ⟨by rw [hs], htail.2⟩
        | cons d2 t2 =>
          rw [show jsonList [c] = jsonStr c from rfl,
            show jsonList (d :: d2 :: t2) = jsonStr d ++ ',' :: ' ' :: jsonList (d2 :: t2)
              from rfl, List.append_assoc] at h
          obtain ⟨hs, htail⟩ := jsonStr_append_inj h
          simp only [List.cons_append, List.cons.injEq] at htail
          exact absurd htail.1 (by decide)
      | cons c2 t1 =>
        cases ds with
        | nil =>
          rw [show jsonList (c :: c2 :: t1) = jsonStr c ++ ',' :: ' ' :: jsonList (c2 :: t1)
              from rfl, show jsonList [d] = jsonStr d from rfl, List.append_assoc] at h
          obtain ⟨hs, htail⟩ := jsonStr_append_inj h
          simp only [List.cons_append, List.cons.injEq] at htail
          exact absurd htail.1 (by decide)
        | cons d2 t2 =>
          rw [show jsonList (c :: c2 :: t1) = jsonStr c ++ ',' :: ' ' :: jsonList (c2 :: t1)
              from rfl,
            show jsonList (d :: d2 :: t2) = jsonStr d ++ ',' :: ' ' :: jsonList (d2 :: t2)
              from rfl, List.append_assoc, List.append_assoc] at h
          obtain ⟨hs, htail⟩ := jsonStr_append_inj h
          simp only [List.cons_append, List.cons.injEq, true_and] at htail
          obtain ⟨hl, hr⟩ := ih (d2 :: t2) r1 r2 htail
          exact ⟨by rw [hs, hl], hr⟩

theorem cacheKeyRaw_inj {t1 t2 : List String} {s1 s2 : String}
    (h : cacheKeyRaw t1 s1 = cacheKeyRaw t2 s2) : t1 = t2 ∧ s1 = s2 := by
  unfold cacheKeyRaw at h
  simp only [List.append_assoc] at h
  have h2 := List.append_cancel_left h
  obtain ⟨hs, h3⟩ := jsonStr_append_inj h2
  have h4 := List.append_cancel_left h3
  have h5 : jsonList t1 ++ ']' :: ['\x7d'] = jsonList t2 ++ ']' :: ['\x7d'] := by
    simpa using h4
  obtain ⟨hl, _⟩ := jsonList_bracket_inj _ _ _ _ h5
  exact ⟨hl, hs⟩

theorem charListLe_total : ∀ a b : List Char, charListLe a b = true ∨ charListLe b a = true := by
  intro a
  induction a with
  | nil => intro b; exact Or.inl rfl
  | cons c cs ih =>
    intro b
    cases b with
    | nil => exact Or.inr rfl
    | cons d ds =>
      by_cases h : c = d
      · subst h
        rcases ih ds with h1 | h1
        · left; simpa [charListLe] using h1
        · right; simpa [charListLe] using h1
      · have hne : c.toNat ≠ d.toNat := fun hh => h (char_toNat_inj hh)
        rcases Nat.lt_or_ge c.toNat d.toNat with hlt | hge
        · left; simp [charListLe, h, hlt]
        · right
          have : d.toNat < c.toNat := by omega
          simp [charListLe, show ¬d = c from fun e => h e.symm, this]

theorem charListLe_trans :
    ∀ a b c : List Char, charListLe a b = true → charListLe b c = true →
      charListLe a c = true := by
  intro a
  induction a with
  | nil => intro b c _ _; rfl
  | cons x xs ih =>
    intro b c hab hbc
    cases b with
    | nil => simp [charListLe] at hab
    | cons y ys =>
      cases c with
      | nil => simp [charListLe] at hbc
      | cons z zs =>
        by_cases hxy : x = y
        · subst hxy
          by_cases hyz : x = z
          · subst hyz
            simp only [charListLe, if_pos rfl] at hab hbc ⊢
            exact ih ys zs hab hbc
          · simp only [charListLe, if_pos rfl] at hab
            simpa [charListLe, hyz] using hbc
        · by_cases hyz : y = z
          · subst hyz
            simpa [charListLe, hxy] using hab
          · simp only [charListLe, if_neg hxy, decide_eq_true_eq] at hab
            simp only [charListLe, if_neg hyz, decide_eq_true_eq] at hbc
            have hxz : x.toNat < z.toNat := by omega
            have hxzne : x ≠ z := fun e => by rw [e] at hxz; omega
            simp [charListLe, hxzne, hxz]

theorem charListLe_antisymm :
    ∀ a b : List Char, charListLe a b = true → charListLe b a = true → a = b := by
  intro a
  induction a with
  | nil =>
    intro b _ hba
    cases b with
    | nil => rfl
    | cons d ds => simp [charListLe] at hba
  | cons c cs ih =>
    intro b hab hba
    cases b with
    | nil => simp [charListLe] at hab
    | cons d ds =>
      by_cases h : c = d
      · subst h
        simp only [charListLe, if_pos rfl] at hab hba
        rw [ih ds hab hba]
      · simp only [charListLe, if_neg h, decide_eq_true_eq] at hab
        simp only [charListLe, if_neg (show ¬d = c from fun e => h e.symm),
          decide_eq_true_eq] at hba
        omega

theorem sortStrings_eq_iff_perm (l1 l2 : List String) :
    sortStrings l1 = sortStrings l2 ↔ l1.Perm l2 := by
  haveI htot : IsTotal String (fun a b => strLe a b = true) :=
    ⟨fun a b => charListLe_total a.data b.data⟩
  haveI htr : IsTrans String (fun a b => strLe a b = true) :=
    ⟨fun a b c => charListLe_trans a.data b.data c.data⟩
  haveI hanti : IsAntisymm String (fun a b => strLe a b = true) :=
    ⟨fun a b hab hba => congrArg String.mk (charListLe_antisymm a.data b.data hab hba)⟩
  constructor
  · intro h
    have p1 := List.perm_insertionSort (fun a b : String => strLe a b = true) l1
    have p2 : List.Perm (sortStrings l1) l2 := by
      rw [h]
      exact List.perm_insertionSort (fun a b : String => strLe a b = true) l2
    exact p1.symm.trans p2
  · intro h
    have p1 := List.perm_insertionSort (fun a b : String => strLe a b = true) l1
    have p2 := List.perm_insertionSort (fun a b : String => strLe a b = true) l2
    exact List.eq_of_perm_of_sorted ((p1.trans h).trans p2.symm)
      (List.sorted_insertionSort _ l1) (List.sorted_insertionSort _ l2)

theorem make_cache_key_eq_iff (t1 t2 : List String) (s1 s2 : String) :
    make_cache_key t1 s1 = make_cache_key t2 s2 ↔
      (normalized_topics t1).Perm (normalized_topics t2) ∧ s1 = s2 := by
  constructor
  · intro h
    unfold make_cache_key at h
    injection h with h2
    obtain ⟨hl, hs⟩ := cacheKeyRaw_inj h2
    exact ⟨(sortStrings_eq_iff_perm _ _).mp hl, hs⟩
  · rintro ⟨hp, rfl⟩
    unfold make_cache_key
    rw [(sortStrings_eq_iff_perm _ _).mpr hp]

theorem scrape_news_429 (k : Option String) (ts : List String)
    (resp : Except String NewsResp) (pe : PyExn)
    (hout : (scrape_google_news k ts resp).out = .error pe)
    (h429 : (pyToHTTP pe).status = 429) :
    (pyToHTTP pe).detail = "News API rate limit reached. Please wait and try again." := by
  unfold scrape_google_news at hout
  split at hout
  all_goals try split at hout
  all_goals try split at hout
  all_goals try split at hout
  all_goals try split at hout
  all_goals try dsimp only at hout
  all_goals try split at hout
  all_goals try simp only [Except.error.injEq] at hout
  all_goals try subst hout
  all_goals simp_all [pyToHTTP]

theorem scrape_x_429 (k : Option String) (ts : List String)
    (resp : Except String XResp) (pe : PyExn)
    (hout : (scrape_x_posts k ts resp).out = .error pe)
    (h429 : (pyToHTTP pe).status = 429) :
    (pyToHTTP pe).detail = "X API rate limit reached. Please wait and try again." := by
  unfold scrape_x_posts at hout
  split at hout
  all_goals try split at hout
  all_goals try split at hout
  all_goals try split at hout
  all_goals try split at hout
  all_goals try dsimp only at hout
  all_goals try split at hout
  all_goals try simp only [Except.error.injEq] at hout
  all_goals try subst hout
  all_goals simp_all [pyToHTTP]

theorem summary_429 (k : Option String) (resp : Except String GroqResp)
    (nd xd : String) (pe : PyExn)
    (hout : summary_function k resp nd xd = .error pe)
    (h429 : (pyToHTTP pe).status = 429) :
    (pyToHTTP pe).detail =
      "Groq LLM rate limit reached. Please wait a few seconds and try again." := by
  unfold summary_function at hout
  split at hout
  all_goals try split at hout
  all_goals try split at hout
  all_goals try split at hout
  all_goals try split at hout
  all_goals try split at hout
  all_goals try split at hout
  all_goals try dsimp only at hout
  all_goals try split at hout
  all_goals try simp only [Except.error.injEq] at hout
  all_goals try subst hout
  all_goals simp_all [pyToHTTP]

theorem pipe_hit (env : Env) (cache : Cache) (req : NewsRequest) (payload : ResultPayload)
    (htop : filter_topics req.topics ≠ [])
    (hhit : (get_from_cache cache env.now
        (make_cache_key (filter_topics req.topics) req.source_type.str)).1 = some payload) :
    (generate_audio env cache req).resp = .ok payload ∧
      (generate_audio env cache req).calls = noCalls := by
  simp only [generate_audio]
  rw [if_neg htop, hhit]
  exact ⟨rfl, rfl⟩

theorem pipe_no_data (env : Env) (cache : Cache) (req : NewsRequest)
    (htop : filter_topics req.topics ≠ [])
    (hmiss : (get_from_cache cache env.now
        (make_cache_key (filter_topics req.topics) req.source_type.str)).1 = none)
    (hnews : req.source_type = .news ∨ req.source_type = .both →
      (scrape_google_news env.NEWS_API_KEY (filter_topics req.topics) env.newsResp).out = .ok "")
    (hx : req.source_type = .X ∨ req.source_type = .both →
      (scrape_x_posts env.X_BEARER_TOKEN (filter_topics req.topics) env.xResp).out = .ok "") :
    (generate_audio env cache req).resp =
      .error ⟨400, "No data could be fetched from News or X for the given topics."⟩ ∧
      (generate_audio env cache req).calls.summarize = false := by
  obtain ⟨tps, st⟩ := req
  simp only [generate_audio] at *
  rw [if_neg htop, hmiss]
  cases st with
  | news => simp [runPipe, hnews (Or.inl rfl)]
  | X => simp [runPipe, hx (Or.inl rfl)]
  | both => simp [runPipe, hnews (Or.inr rfl), hx (Or.inr rfl)]

theorem generate_audio_miss (env : Env) (cache : Cache) (req : NewsRequest)
    (htop : filter_topics req.topics ≠ [])
    (hmiss : (get_from_cache cache env.now
        (make_cache_key (filter_topics req.topics) req.source_type.str)).1 = none) :
    generate_audio env cache req =
      runPipe env
        (get_from_cache cache env.now
          (make_cache_key (filter_topics req.topics) req.source_type.str)).2
        (make_cache_key (filter_topics req.topics) req.source_type.str)
        (filter_topics req.topics) req.source_type := by
  simp only [generate_audio]
  rw [if_neg htop, hmiss]

theorem runPipe_news_429 (env : Env) (cache1 : Cache) (key : String)
    (topics : List String) (st : SourceType) (hsel : st = .news ∨ st = .both)
    (hkey : pyTruthy env.NEWS_API_KEY = true) (r : NewsResp)
    (hr : env.newsResp = .ok r) (h429 : r.status = 429) :
    (runPipe env cache1 key topics st).resp =
      .error ⟨429, "News API rate limit reached. Please wait and try again."⟩ := by
  rcases hsel with rfl | rfl <;>
    simp [runPipe, scrape_google_news, hkey, hr, h429, pyToHTTP]

theorem runPipe_x_429 (env : Env) (cache1 : Cache) (key : String)
    (topics : List String) (st : SourceType) (nd : String) (hsel : st = .X ∨ st = .both)
    (hn : st = .both →
      (scrape_google_news env.NEWS_API_KEY topics env.newsResp).out = .ok nd)
    (htok : pyTruthy env.X_BEARER_TOKEN = true) (rx : XResp)
    (hrx : env.xResp = .ok rx) (h429 : rx.status = 429) :
    (runPipe env cache1 key topics st).resp =
      .error ⟨429, "X API rate limit reached. Please wait and try again."⟩ := by
  rcases hsel with rfl | rfl
  · simp [runPipe, scrape_x_posts, htok, hrx, h429, pyToHTTP]
  · simp [runPipe, hn rfl, scrape_x_posts, htok, hrx, h429, pyToHTTP]

theorem runPipe_groq_429 (env : Env) (cache1 : Cache) (key : String)
    (topics : List String) (st : SourceType) (nd xd : String)
    (hnews : st = .news ∨ st = .both →
      (scrape_google_news env.NEWS_API_KEY topics env.newsResp).out = .ok nd)
    (hnews2 : st = .X → nd = "")
    (hx : st = .X ∨ st = .both →
      (scrape_x_posts env.X_BEARER_TOKEN topics env.xResp).out = .ok xd)
    (hx2 : st = .news → xd = "")
    (hne : ¬(nd = "" ∧ xd = ""))
    (hgk : pyTruthy env.GROQ_API_KEY = true) (rg : GroqResp)
    (hrg : env.groqResp = .ok rg) (h429 : rg.status = 429) :
    (runPipe env cache1 key topics st).resp =
      .error ⟨429, "Groq LLM rate limit reached. Please wait a few seconds and try again."⟩ := by
  cases st with
  | news =>
    have hxd := hx2 rfl
    subst hxd
    have hnd : ¬nd = "" := by simpa using hne
    simp [runPipe, hnews (Or.inl rfl), summary_function, hgk, hrg, h429, hnd, pyToHTTP]
  | X =>
    have hnd := hnews2 rfl
    subst hnd
    have hxd : ¬xd = "" := by simpa using hne
    simp [runPipe, hx (Or.inl rfl), summary_function, hgk, hrg, h429, hxd, pyToHTTP]
  | both =>
    simp [runPipe, hnews (Or.inr rfl), hx (Or.inr rfl), summary_function, hgk, hrg, h429,
      hne, pyToHTTP]

theorem runPipe_store (env : Env) (cache1 : Cache) (key : String)
    (topics : List String) (st : SourceType) (payload : ResultPayload) :
    (runPipe env cache1 key topics st).resp = .ok payload →
      (runPipe env cache1 key topics st).cache key = some ⟨payload, env.now⟩ := by
  simp only [runPipe]
  split
  all_goals try split
  all_goals try split
  all_goals try split
  all_goals try split
  all_goals intro hok
  all_goals simp_all [set_cache]

theorem runPipe_x_exn (env : Env) (cache1 : Cache) (key : String)
    (topics : List String) (nd m : String)
    (hn : (scrape_google_news env.NEWS_API_KEY topics env.newsResp).out = .ok nd)
    (htok : pyTruthy env.X_BEARER_TOKEN = true)
    (hxe : env.xResp = .error m) :
    (runPipe env cache1 key topics .both).resp = .error ⟨500, m⟩ ∧
      (runPipe env cache1 key topics .both).calls.summarize = false := by
  simp [runPipe, hn, scrape_x_posts, htok, hxe, pyToHTTP]

theorem runPipe_news_config (env : Env) (cache1 : Cache) (key : String)
    (topics : List String) (st : SourceType) (hsel : st = .news ∨ st = .both)
    (hkey : pyTruthy env.NEWS_API_KEY = false) :
    (runPipe env cache1 key topics st).resp =
      .error ⟨500, "NEWS_API_KEY is not configured on the server."⟩ := by
  rcases hsel with rfl | rfl <;> simp [runPipe, scrape_google_news, hkey, pyToHTTP]

theorem runPipe_x_noToken_proceeds (env : Env) (cache1 : Cache) (key : String)
    (topics : List String) (nd : String)
    (hn : (scrape_google_news env.NEWS_API_KEY topics env.newsResp).out = .ok nd)
    (hnd : nd ≠ "")
    (htok : pyTruthy env.X_BEARER_TOKEN = false) :
    (runPipe env cache1 key topics .both).calls.summarize = true := by
  simp [runPipe, hn, scrape_x_posts, htok, hnd]
  split
  · rfl
  · split <;> rfl

theorem runPipe_429_classify (env : Env) (cache1 : Cache) (key : String)
    (topics : List String) (st : SourceType) (e : HTTPError)
    (he : (runPipe env cache1 key topics st).resp = .error e) (h429 : e.status = 429) :
    e.detail = "News API rate limit reached. Please wait and try again." ∨
      e.detail = "X API rate limit reached. Please wait and try again." ∨
      e.detail = "Groq LLM rate limit reached. Please wait a few seconds and try again." := by
  simp only [runPipe] at he
  split at he
  · rename_i e' heq
    simp only [Except.error.injEq] at he
    subst he
    split at heq
    · exact Or.inl (scrape_news_429 _ _ _ _ heq h429)
    · simp at heq
  · rename_i nd heqn
    split at he
    · rename_i e' heq
      simp only [Except.error.injEq] at he
      subst he
      split at heq
      · exact Or.inr (Or.inl (scrape_x_429 _ _ _ _ heq h429))
      · simp at heq
    · rename_i xd heqx
      split at he
      · simp only [Except.error.injEq] at he
        subst he
        simp_all
      · split at he
        · rename_i e' heq
          simp only [Except.error.injEq] at he
          subst he
          exact Or.inr (Or.inr (summary_429 _ _ _ _ _ heq h429))
        · rename_i s heq
          split at he
          · simp only [Except.error.injEq] at he
            subst he
            simp_all
          · simp at he

theorem pipe_429_classify (env : Env) (cache : Cache) (req : NewsRequest) (e : HTTPError)
    (he : (generate_audio env cache req).resp = .error e) (h429 : e.status = 429) :
    e.detail = "News API rate limit reached. Please wait and try again." ∨
      e.detail = "X API rate limit reached. Please wait and try again." ∨
      e.detail = "Groq LLM rate limit reached. Please wait a few seconds and try again." := by
  by_cases htop : filter_topics req.topics = []
  · simp only [generate_audio] at he
    rw [if_pos htop] at he
    simp only [Except.error.injEq] at he
    subst he
    simp_all
  · rcases hm : (get_from_cache cache env.now
        (make_cache_key (filter_topics req.topics) req.source_type.str)).1 with _ | payload
    · rw [generate_audio_miss env cache req htop hm] at he
      exact runPipe_429_classify _ _ _ _ _ _ he h429
    · obtain ⟨hresp, _⟩ := pipe_hit env cache req payload htop hm
      rw [hresp] at he
      simp at he

/-- C5: a cache put followed by a get within the 600-second TTL returns the
stored payload unchanged; a get past the TTL returns absent, deletes the
entry, and later gets for the key stay absent. -/
theorem claim_C5_cache_ttl (cache : Cache) (k : String) (d : ResultPayload) (t0 t1 t2 : Int) :
    CACHE_TTL_SECONDS = 600 ∧
    (t1 - t0 ≤ 600 →
      (get_from_cache (set_cache cache t0 k d) t1 k).1 = some d) ∧
    (t1 - t0 > 600 →
      (get_from_cache (set_cache cache t0 k d) t1 k).1 = none ∧
      (get_from_cache (set_cache cache t0 k d) t1 k).2 k = none ∧
      (get_from_cache (get_from_cache (set_cache cache t0 k d) t1 k).2 t2 k).1 = none) := by
  refine ⟨by decide, fun h => ?_, fun h => ?_⟩
  · have hc : ¬(t1 - t0 > CACHE_TTL_SECONDS) := by
      simp only [CACHE_TTL_SECONDS]
      omega
    simp [get_from_cache, set_cache, hc]
  · have hc : t1 - t0 > CACHE_TTL_SECONDS := by
      simp only [CACHE_TTL_SECONDS]
      omega
    simp [get_from_cache, set_cache, hc]

theorem claim_C5_cache_ttl_witness :
    (get_from_cache (set_cache (fun _ => none) 0 "k" ⟨"s", "a"⟩) 600 "k").1 = some ⟨"s", "a"⟩ ∧
    (get_from_cache (set_cache (fun _ => none) 0 "k" ⟨"s", "a"⟩) 601 "k").1 = none ∧
    (get_from_cache (set_cache (fun _ => none) 0 "k" ⟨"s", "a"⟩) 601 "k").2 "k" = none ∧
    (get_from_cache
      (get_from_cache (set_cache (fun _ => none) 0 "k" ⟨"s", "a"⟩) 601 "k").2 700 "k").1 = none :=
  ⟨(claim_C5_cache_ttl (fun _ => none) "k" ⟨"s", "a"⟩ 0 600 700).2.1 (by decide),
   ((claim_C5_cache_ttl (fun _ => none) "k" ⟨"s", "a"⟩ 0 601 700).2.2 (by decide)).1,
   ((claim_C5_cache_ttl (fun _ => none) "k" ⟨"s", "a"⟩ 0 601 700).2.2 (by decide)).2.1,
   ((claim_C5_cache_ttl (fun _ => none) "k" ⟨"s", "a"⟩ 0 601 700).2.2 (by decide)).2.2⟩

/-- C9: the summarizer cleaning removes every think block via a non-greedy,
multiline substitution and trims the result: the spec example, a multiline
block, two blocks in one text, and the non-greedy behaviour on a stray
closing delimiter, stated on the cleaning function and on
summary_function itself. -/
theorem claim_C9_cleaning :
    pyStrip (removeThinkStr "<think>internal musing</think>Final: - a - b") = "Final: - a - b" ∧
    pyStrip (removeThinkStr "<think>a\nb</think>ok") = "ok" ∧
    pyStrip (removeThinkStr "x<think>a</think>y<think>b</think>z") = "xyz" ∧
    pyStrip (removeThinkStr "<think>a</think>mid</think>tail") = "mid</think>tail" ∧
    summary_function (some "g")
      (.ok ⟨200, "", .json none (some ["<think>internal musing</think>Final: - a - b"])⟩)
      "news text" "" = .ok "Final: - a - b" := by
  decide

/-- C1 (counterexample): the topic lists [AI, ai] and [ai] denote the same
topic set irrespective of case, and both requests carry the selector news,
yet the fingerprints differ, because make_cache_key keeps duplicates. -/
theorem claim_C1_counterexample :
    ((["AI", "ai"].map (fun t => pyLower (pyStrip t))).toFinset =
      (["ai"].map (fun t => pyLower (pyStrip t))).toFinset) ∧
    make_cache_key ["AI", "ai"] "news" ≠ make_cache_key ["ai"] "news" := by
  decide

/-- C1 (amended): two requests yield the same fingerprint exactly when they
carry the same selector and their normalized topic lists (trimmed, empties
dropped, lowercased, duplicates retained) are permutations of each other;
SHA-256 collisions are treated as impossible, so fingerprint equality is
equality of the serialized canonical payloads. -/
theorem claim_C1_fingerprint (t1 t2 : List String) (s1 s2 : String) :
    make_cache_key t1 s1 = make_cache_key t2 s2 ↔
      (normalized_topics t1).Perm (normalized_topics t2) ∧ s1 = s2 :=
  make_cache_key_eq_iff t1 t2 s1 s2

/-- C2 (counterexample): the pipeline keeps the topic list [AI, ai] as two
topics (no deduplication), and its fingerprint differs from that of the
single topic [ai]. -/
theorem claim_C2_counterexample :
    filter_topics ["AI", "ai"] = ["AI", "ai"] ∧
    make_cache_key ["AI", "ai"] "both" ≠ make_cache_key ["ai"] "both" := by
  decide

/-- C2 (amended): topic normalization trims and drops empty topics but does
not deduplicate: the request topics [AI, ai] are processed as the two
topics [AI, ai], fingerprinted as the normalized list [ai, ai]; the
fingerprint agrees with every order/case variant of the same pair but
differs from the fingerprint of the single topic [ai]. -/
theorem claim_C2_no_dedup :
    filter_topics ["AI", "ai"] = ["AI", "ai"] ∧
    sortStrings (normalized_topics ["AI", "ai"]) = ["ai", "ai"] ∧
    make_cache_key ["AI", "ai"] "both" = make_cache_key ["ai", "AI"] "both" ∧
    make_cache_key ["AI", "ai"] "both" ≠ make_cache_key ["ai"] "both" := by
  decide

/-- C3 (counterexample): a content-source response with status 500 (non-2xx,
not 429) makes the content-source fetcher raise an HTTPException carrying
the upstream status, not return an empty string. -/
theorem claim_C3_counterexample :
    scrape_google_news (some "k") ["ai"] (.ok ⟨500, "server error", .json (some [])⟩) =
      ⟨.error (.http ⟨500, "News API error: server error"⟩), true⟩ ∧
    (scrape_google_news (some "k") ["ai"]
      (.ok ⟨500, "server error", .json (some [])⟩)).out ≠ .ok "" := by
  decide

/-- C3 (amended): the degrade-to-empty policy is asymmetric.  The
social-source fetcher returns an empty string on any non-200 non-429
status and on a missing or empty data array; the content-source fetcher
raises an HTTPException carrying the upstream status for any non-200
non-429 status and returns an empty string only when the body parses with
a missing or empty articles array. -/
theorem claim_C3_degrade_asymmetry (tk k : String) (htk : tk ≠ "") (hk : k ≠ "")
    (ts : List String) (rx : XResp) (rn : NewsResp) :
    (rx.status ≠ 429 → rx.status ≠ 200 →
      (scrape_x_posts (some tk) ts (.ok rx)).out = .ok "") ∧
    (rn.status ≠ 429 → rn.status ≠ 200 →
      (scrape_google_news (some k) ts (.ok rn)).out =
        .error (.http ⟨rn.status, "News API error: " ++ rn.text⟩)) ∧
    (∀ arts, arts = none ∨ arts = some ([] : List Article) → ∀ rt,
      (scrape_google_news (some k) ts (.ok ⟨200, rt, .json arts⟩)).out = .ok "") ∧
    (∀ tws, tws = none ∨ tws = some ([] : List (Option String)) → ∀ rt,
      (scrape_x_posts (some tk) ts (.ok ⟨200, rt, .json tws⟩)).out = .ok "") := by
  refine ⟨fun h429 h200 => ?_, fun h429 h200 => ?_, fun arts ha rt => ?_, fun tws ht rt => ?_⟩
  · simp [scrape_x_posts, pyTruthy, htk, h429, h200]
  · simp [scrape_google_news, pyTruthy, hk, h429, h200]
  · rcases ha with rfl | rfl <;> simp [scrape_google_news, pyTruthy, hk]
  · rcases ht with rfl | rfl <;> simp [scrape_x_posts, pyTruthy, htk]

theorem claim_C3_degrade_asymmetry_witness :
    (scrape_x_posts (some "t") ["ai"] (.ok ⟨500, "oops", .json (some [some "x"])⟩)).out =
      .ok "" ∧
    (scrape_google_news (some "k") ["ai"] (.ok ⟨503, "down", .json none⟩)).out =
      .error (.http ⟨503, "News API error: down"⟩) ∧
    (scrape_google_news (some "k") ["ai"] (.ok ⟨200, "", .json none⟩)).out = .ok "" ∧
    (scrape_x_posts (some "t") ["ai"] (.ok ⟨200, "", .json (some [])⟩)).out = .ok "" :=
  ⟨(claim_C3_degrade_asymmetry "t" "k" (by decide) (by decide) ["ai"]
      ⟨500, "oops", .json (some [some "x"])⟩ ⟨503, "down", .json none⟩).1
      (by decide) (by decide),
   (claim_C3_degrade_asymmetry "t" "k" (by decide) (by decide) ["ai"]
      ⟨500, "oops", .json (some [some "x"])⟩ ⟨503, "down", .json none⟩).2.1
      (by decide) (by decide),
   (claim_C3_degrade_asymmetry "t" "k" (by decide) (by decide) ["ai"]
      ⟨500, "oops", .json (some [some "x"])⟩ ⟨503, "down", .json none⟩).2.2.1
      none (Or.inl rfl) "",
   (claim_C3_degrade_asymmetry "t" "k" (by decide) (by decide) ["ai"]
      ⟨500, "oops", .json (some [some "x"])⟩ ⟨503, "down", .json none⟩).2.2.2
      (some []) (Or.inr rfl) ""⟩

/-- C4 (counterexample): with a cache miss, selector both, a content fetch
that succeeds with non-empty text and a social fetch whose transport
raises, the endpoint fails with HTTP 500 carrying the exception text and
never reaches summarization, instead of proceeding with the content text. -/
theorem claim_C4_counterexample :
    (generate_audio
      ⟨some "k", some "t", some "g",
       .ok ⟨200, "", .json (some [⟨some "Title", some "Desc"⟩])⟩,
       .error "ConnectTimeout",
       .ok ⟨200, "", .json none (some ["- point one"])⟩,
       fun _ => "AUDIO", 0⟩
      (fun _ => none) ⟨["ai"], .both⟩).resp = .error ⟨500, "ConnectTimeout"⟩ ∧
    (generate_audio
      ⟨some "k", some "t", some "g",
       .ok ⟨200, "", .json (some [⟨some "Title", some "Desc"⟩])⟩,
       .error "ConnectTimeout",
       .ok ⟨200, "", .json none (some ["- point one"])⟩,
       fun _ => "AUDIO", 0⟩
      (fun _ => none) ⟨["ai"], .both⟩).calls.summarize = false := by
  decide

/-- C4 (amended): a transport-level exception in the social-source fetch is
not caught by the fetcher: it propagates and the endpoint catch-all turns
it into an HTTP 500 failure carrying the exception text, aborting the
request without invoking the summarizer even when the content fetch
succeeded. -/
theorem claim_C4_exception_aborts (env : Env) (cache : Cache) (req : NewsRequest)
    (nd m : String)
    (htop : filter_topics req.topics ≠ [])
    (hmiss : (get_from_cache cache env.now
        (make_cache_key (filter_topics req.topics) req.source_type.str)).1 = none)
    (hst : req.source_type = .both)
    (hn : (scrape_google_news env.NEWS_API_KEY (filter_topics req.topics)
        env.newsResp).out = .ok nd)
    (htok : pyTruthy env.X_BEARER_TOKEN = true)
    (hxe : env.xResp = .error m) :
    (generate_audio env cache req).resp = .error ⟨500, m⟩ ∧
      (generate_audio env cache req).calls.summarize = false := by
  rw [generate_audio_miss env cache req htop hmiss, hst]
  exact runPipe_x_exn env _ _ _ nd m hn htok hxe

theorem claim_C4_exception_aborts_witness :
    (generate_audio
      ⟨some "k", some "t", some "g",
       .ok ⟨200, "", .json (some [⟨some "T", some "D"⟩])⟩,
       .error "ReadTimeout",
       .ok ⟨200, "", .json none (some ["- p"])⟩,
       fun _ => "A", 0⟩
      (fun _ => none) ⟨["climate"], .both⟩).resp = .error ⟨500, "ReadTimeout"⟩ :=
  (claim_C4_exception_aborts
    ⟨some "k", some "t", some "g",
     .ok ⟨200, "", .json (some [⟨some "T", some "D"⟩])⟩,
     .error "ReadTimeout",
     .ok ⟨200, "", .json none (some ["- p"])⟩,
     fun _ => "A", 0⟩
    (fun _ => none) ⟨["climate"], .both⟩ "T. D" "ReadTimeout"
    (by decide) (by decide) rfl (by decide) (by decide) rfl).1

/-- C6: on the non-cached path, when every fetch that runs returns empty
text, the endpoint fails with the no-data error (HTTP 400 with the
no-data detail) and the summarizer is never invoked. -/
theorem claim_C6_no_data (env : Env) (cache : Cache) (req : NewsRequest)
    (htop : filter_topics req.topics ≠ [])
    (hmiss : (get_from_cache cache env.now
        (make_cache_key (filter_topics req.topics) req.source_type.str)).1 = none)
    (hnews : req.source_type = .news ∨ req.source_type = .both →
      (scrape_google_news env.NEWS_API_KEY (filter_topics req.topics) env.newsResp).out = .ok "")
    (hx : req.source_type = .X ∨ req.source_type = .both →
      (scrape_x_posts env.X_BEARER_TOKEN (filter_topics req.topics) env.xResp).out = .ok "") :
    (generate_audio env cache req).resp =
      .error ⟨400, "No data could be fetched from News or X for the given topics."⟩ ∧
      (generate_audio env cache req).calls.summarize = false :=
  pipe_no_data env cache req htop hmiss hnews hx

theorem claim_C6_no_data_witness :
    (generate_audio
      ⟨some "k", some "t", some "g",
       .ok ⟨200, "", .json (some [])⟩, .ok ⟨200, "", .json (some [])⟩,
       .ok ⟨200, "", .json none (some ["- p"])⟩, fun _ => "A", 0⟩
      (fun _ => none) ⟨["ai"], .both⟩).resp =
      .error ⟨400, "No data could be fetched from News or X for the given topics."⟩ ∧
    (generate_audio
      ⟨some "k", some "t", some "g",
       .ok ⟨200, "", .json (some [])⟩, .ok ⟨200, "", .json (some [])⟩,
       .ok ⟨200, "", .json none (some ["- p"])⟩, fun _ => "A", 0⟩
      (fun _ => none) ⟨["ai"], .both⟩).calls.summarize = false :=
  claim_C6_no_data
    ⟨some "k", some "t", some "g",
     .ok ⟨200, "", .json (some [])⟩, .ok ⟨200, "", .json (some [])⟩,
     .ok ⟨200, "", .json none (some ["- p"])⟩, fun _ => "A", 0⟩
    (fun _ => none) ⟨["ai"], .both⟩
    (by decide) (by decide) (fun _ => by decide) (fun _ => by decide)

/-- C7: an HTTP 429 from any of the three upstream calls that the request
reaches makes the endpoint fail with the corresponding rate-limit error
(status 429); and every status-429 failure of the endpoint carries one of
the three rate-limit details, so rate limiting is distinguishable from
every other error class and is never degraded to an empty result. -/
theorem claim_C7_rate_limited (env : Env) (cache : Cache) (req : NewsRequest)
    (htop : filter_topics req.topics ≠ [])
    (hmiss : (get_from_cache cache env.now
        (make_cache_key (filter_topics req.topics) req.source_type.str)).1 = none) :
    (∀ r : NewsResp, req.source_type = .news ∨ req.source_type = .both →
      pyTruthy env.NEWS_API_KEY = true → env.newsResp = .ok r → r.status = 429 →
      (generate_audio env cache req).resp =
        .error ⟨429, "News API rate limit reached. Please wait and try again."⟩) ∧
    (∀ rx : XResp, ∀ nd : String, req.source_type = .X ∨ req.source_type = .both →
      (req.source_type = .both →
        (scrape_google_news env.NEWS_API_KEY (filter_topics req.topics)
          env.newsResp).out = .ok nd) →
      pyTruthy env.X_BEARER_TOKEN = true → env.xResp = .ok rx → rx.status = 429 →
      (generate_audio env cache req).resp =
        .error ⟨429, "X API rate limit reached. Please wait and try again."⟩) ∧
    (∀ rg : GroqResp, ∀ nd xd : String,
      (req.source_type = .news ∨ req.source_type = .both →
        (scrape_google_news env.NEWS_API_KEY (filter_topics req.topics)
          env.newsResp).out = .ok nd) →
      (req.source_type = .X → nd = "") →
      (req.source_type = .X ∨ req.source_type = .both →
        (scrape_x_posts env.X_BEARER_TOKEN (filter_topics req.topics)
          env.xResp).out = .ok xd) →
      (req.source_type = .news → xd = "") →
      ¬(nd = "" ∧ xd = "") →
      pyTruthy env.GROQ_API_KEY = true → env.groqResp = .ok rg → rg.status = 429 →
      (generate_audio env cache req).resp =
        .error ⟨429, "Groq LLM rate limit reached. Please wait a few seconds and try again."⟩) ∧
    (∀ e : HTTPError, (generate_audio env cache req).resp = .error e → e.status = 429 →
      e.detail = "News API rate limit reached. Please wait and try again." ∨
      e.detail = "X API rate limit reached. Please wait and try again." ∨
      e.detail = "Groq LLM rate limit reached. Please wait a few seconds and try again.") := by
  refine ⟨fun r hsel hkey hr h429 => ?_, fun rx nd hsel hn htok hrx h429 => ?_,
    fun rg nd xd h1 h2 h3 h4 hne hgk hrg h429 => ?_,
    fun e he h429 => pipe_429_classify env cache req e he h429⟩
  · rw [generate_audio_miss env cache req htop hmiss]
    exact runPipe_news_429 env _ _ _ _ hsel hkey r hr h429
  · rw [generate_audio_miss env cache req htop hmiss]
    exact runPipe_x_429 env _ _ _ _ nd hsel hn htok rx hrx h429
  · rw [generate_audio_miss env cache req htop hmiss]
    exact runPipe_groq_429 env _ _ _ _ nd xd h1 h2 h3 h4 hne hgk rg hrg h429

theorem claim_C7_rate_limited_witness :
    (generate_audio
      ⟨some "k", some "t", some "g", .ok ⟨429, "slow down", .json none⟩,
       .ok ⟨200, "", .json (some [])⟩, .ok ⟨200, "", .json none (some ["- p"])⟩,
       fun _ => "A", 0⟩
      (fun _ => none) ⟨["ai"], .news⟩).resp =
      .error ⟨429, "News API rate limit reached. Please wait and try again."⟩ :=
  (claim_C7_rate_limited
    ⟨some "k", some "t", some "g", .ok ⟨429, "slow down", .json none⟩,
     .ok ⟨200, "", .json (some [])⟩, .ok ⟨200, "", .json none (some ["- p"])⟩,
     fun _ => "A", 0⟩
    (fun _ => none) ⟨["ai"], .news⟩ (by decide) (by decide)).1
    ⟨429, "slow down", .json none⟩ (Or.inl rfl) (by decide) rfl rfl

/-- C8: a request whose fingerprint has an unexpired cache entry is answered
with the stored payload and no fetch, summarize or synthesize call is
made; on the miss path, a successful run stores its payload under the
same fingerprint computed at the cache check, stamped with the current
time. -/
theorem claim_C8_cache_shortcircuit (env : Env) (cache : Cache) (req : NewsRequest)
    (htop : filter_topics req.topics ≠ []) :
    (∀ payload : ResultPayload,
      (get_from_cache cache env.now
        (make_cache_key (filter_topics req.topics) req.source_type.str)).1 = some payload →
      (generate_audio env cache req).resp = .ok payload ∧
        (generate_audio env cache req).calls = noCalls) ∧
    (∀ payload : ResultPayload,
      (get_from_cache cache env.now
        (make_cache_key (filter_topics req.topics) req.source_type.str)).1 = none →
      (generate_audio env cache req).resp = .ok payload →
      (generate_audio env cache req).cache
        (make_cache_key (filter_topics req.topics) req.source_type.str) =
        some ⟨payload, env.now⟩) := by
  constructor
  · intro payload hhit
    exact pipe_hit env cache req payload htop hhit
  · intro payload hmiss hok
    rw [generate_audio_miss env cache req htop hmiss] at hok ⊢
    exact runPipe_store env _ _ _ _ payload hok

theorem claim_C8_cache_shortcircuit_witness :
    (generate_audio
      ⟨some "k", some "t", some "g", .ok ⟨200, "", .json (some [])⟩,
       .ok ⟨200, "", .json (some [])⟩, .ok ⟨200, "", .json none (some ["- p"])⟩,
       fun _ => "A", 100⟩
      (fun k => if k = make_cache_key ["ai"] "both" then some ⟨⟨"s", "a"⟩, 0⟩ else none)
      ⟨["ai"], .both⟩).resp = .ok ⟨"s", "a"⟩ ∧
    (generate_audio
      ⟨some "k", some "t", some "g", .ok ⟨200, "", .json (some [])⟩,
       .ok ⟨200, "", .json (some [])⟩, .ok ⟨200, "", .json none (some ["- p"])⟩,
       fun _ => "A", 100⟩
      (fun k => if k = make_cache_key ["ai"] "both" then some ⟨⟨"s", "a"⟩, 0⟩ else none)
      ⟨["ai"], .both⟩).calls = noCalls ∧
    (generate_audio
      ⟨some "k", none, some "g",
       .ok ⟨200, "", .json (some [⟨some "T", some "D"⟩])⟩,
       .ok ⟨200, "", .json (some [])⟩, .ok ⟨200, "", .json none (some ["- p"])⟩,
       fun _ => "A", 0⟩
      (fun _ => none) ⟨["ai"], .news⟩).cache
      (make_cache_key (filter_topics ["ai"]) SourceType.news.str) =
      some ⟨⟨"- p", "A"⟩, 0⟩ :=
  ⟨((claim_C8_cache_shortcircuit
      ⟨some "k", some "t", some "g", .ok ⟨200, "", .json (some [])⟩,
       .ok ⟨200, "", .json (some [])⟩, .ok ⟨200, "", .json none (some ["- p"])⟩,
       fun _ => "A", 100⟩
      (fun k => if k = make_cache_key ["ai"] "both" then some ⟨⟨"s", "a"⟩, 0⟩ else none)
      ⟨["ai"], .both⟩ (by decide)).1 ⟨"s", "a"⟩ (by decide)).1,
   ((claim_C8_cache_shortcircuit
      ⟨some "k", some "t", some "g", .ok ⟨200, "", .json (some [])⟩,
       .ok ⟨200, "", .json (some [])⟩, .ok ⟨200, "", .json none (some ["- p"])⟩,
       fun _ => "A", 100⟩
      (fun k => if k = make_cache_key ["ai"] "both" then some ⟨⟨"s", "a"⟩, 0⟩ else none)
      ⟨["ai"], .both⟩ (by decide)).1 ⟨"s", "a"⟩ (by decide)).2,
   (claim_C8_cache_shortcircuit
      ⟨some "k", none, some "g",
       .ok ⟨200, "", .json (some [⟨some "T", some "D"⟩])⟩,
       .ok ⟨200, "", .json (some [])⟩, .ok ⟨200, "", .json none (some ["- p"])⟩,
       fun _ => "A", 0⟩
      (fun _ => none) ⟨["ai"], .news⟩ (by decide)).2 ⟨"- p", "A"⟩
      (by decide) (by decide)⟩

/-- C10: credential-absence handling is asymmetric.  A falsy content-source
credential makes the content-source fetcher raise a fatal HTTP 500
configuration error without any network call, so any news-involving
request fails with that error; a falsy social-source credential makes the
social-source fetcher return an empty string without any network call,
and the request proceeds past the fetch stage (reaching summarization
when the content fetch produced text). -/
theorem claim_C10_credential_asymmetry (env : Env) (cache : Cache) (req : NewsRequest)
    (nd : String) :
    (∀ (nk : Option String) (ts : List String) (nr : Except String NewsResp),
      pyTruthy nk = false →
      scrape_google_news nk ts nr =
        ⟨.error (.http ⟨500, "NEWS_API_KEY is not configured on the server."⟩), false⟩) ∧
    (∀ (xt : Option String) (ts : List String) (xr : Except String XResp),
      pyTruthy xt = false → scrape_x_posts xt ts xr = ⟨.ok "", false⟩) ∧
    (req.source_type = .news ∨ req.source_type = .both →
      pyTruthy env.NEWS_API_KEY = false →
      filter_topics req.topics ≠ [] →
      (get_from_cache cache env.now
        (make_cache_key (filter_topics req.topics) req.source_type.str)).1 = none →
      (generate_audio env cache req).resp =
        .error ⟨500, "NEWS_API_KEY is not configured on the server."⟩) ∧
    (req.source_type = .both →
      pyTruthy env.X_BEARER_TOKEN = false →
      filter_topics req.topics ≠ [] →
      (get_from_cache cache env.now
        (make_cache_key (filter_topics req.topics) req.source_type.str)).1 = none →
      (scrape_google_news env.NEWS_API_KEY (filter_topics req.topics)
        env.newsResp).out = .ok nd →
      nd ≠ "" →
      (generate_audio env cache req).calls.summarize = true) := by
  refine ⟨fun nk ts nr h => ?_, fun xt ts xr h => ?_,
    fun hsel hkey htop hmiss => ?_, fun hsel htok htop hmiss hn hnd => ?_⟩
  · simp [scrape_google_news, h]
  · simp [scrape_x_posts, h]
  · rw [generate_audio_miss env cache req htop hmiss]
    exact runPipe_news_config env _ _ _ _ hsel hkey
  · rw [generate_audio_miss env cache req htop hmiss, hsel]
    exact runPipe_x_noToken_proceeds env _ _ _ nd hn hnd htok

theorem claim_C10_credential_asymmetry_witness :
    scrape_x_posts none ["ai"] (.ok ⟨200, "", .json (some [some "x"])⟩) = ⟨.ok "", false⟩ ∧
    (generate_audio
      ⟨none, some "t", some "g", .ok ⟨200, "", .json (some [])⟩,
       .ok ⟨200, "", .json (some [])⟩, .ok ⟨200, "", .json none (some ["- p"])⟩,
       fun _ => "A", 0⟩
      (fun _ => none) ⟨["ai"], .news⟩).resp =
      .error ⟨500, "NEWS_API_KEY is not configured on the server."⟩ ∧
    (generate_audio
      ⟨some "k", none, some "g",
       .ok ⟨200, "", .json (some [⟨some "T", some "D"⟩])⟩,
       .ok ⟨200, "", .json (some [])⟩, .ok ⟨200, "", .json none (some ["- p"])⟩,
       fun _ => "A", 0⟩
      (fun _ => none) ⟨["ai"], .both⟩).calls.summarize = true :=
  ⟨(claim_C10_credential_asymmetry
      ⟨none, some "t", some "g", .ok ⟨200, "", .json (some [])⟩,
       .ok ⟨200, "", .json (some [])⟩, .ok ⟨200, "", .json none (some ["- p"])⟩,
       fun _ => "A", 0⟩
      (fun _ => none) ⟨["ai"], .news⟩ "").2.1 none ["ai"]
      (.ok ⟨200, "", .json (some [some "x"])⟩) (by decide),
   (claim_C10_credential_asymmetry
      ⟨none, some "t", some "g", .ok ⟨200, "", .json (some [])⟩,
       .ok ⟨200, "", .json (some [])⟩, .ok ⟨200, "", .json none (some ["- p"])⟩,
       fun _ => "A", 0⟩
      (fun _ => none) ⟨["ai"], .news⟩ "").2.2.1 (Or.inl rfl) (by decide)
      (by decide) (by decide),
   (claim_C10_credential_asymmetry
      ⟨some "k", none, some "g",
       .ok ⟨200, "", .json (some [⟨some "T", some "D"⟩])⟩,
       .ok ⟨200, "", .json (some [])⟩, .ok ⟨200, "", .json none (some ["- p"])⟩,
       fun _ => "A", 0⟩
      (fun _ => none) ⟨["ai"], .both⟩ "T. D").2.2.2 rfl (by decide) (by decide)
      (by decide) (by decide) (by decide)⟩
